import Mathlib

/-!
Shallow embedding of the Virtuozzo external-storage provisioner
(`virtuozzo-provisioner.go` variants) and proofs about its volume
lifecycle logic: `prepareVstorage`, `createPloop`, `removePloop`,
`Provision` and `Delete`.

Go maps of string options are modelled as association lists with
map-like lookup/update; the filesystem, the vstorage mount table and
the secret store are modelled as an explicit state record threaded
through each function; external fallible operations (ploop creation,
`vstorage set-attr`, authentication, mounting, secret patching) are
modelled by a record of success oracles so that every control path of
the Go code is representable.
-/

/-- Option maps (`map[string]string` in Go), as association lists whose
update operations keep keys unique. -/
abbrev Opts := List (String × String)

/-- Lookup with Go's zero-value default: `options[k]` is `""` when `k` is absent. -/
def getOpt (m : Opts) (k : String) : String :=
  match m.find? (fun p => p.1 == k) with
  | some p => p.2
  | none => ""

/-- Lookup with Go's comma-ok form: `v, ok := options[k]`. -/
def getOptQ (m : Opts) (k : String) : Option String :=
  (m.find? (fun p => p.1 == k)).map (fun p => p.2)

/-- Map update `options[k] = v`. -/
def setOpt (m : Opts) (k v : String) : Opts :=
  (k, v) :: m.filter (fun p => p.1 != k)

/-- Map deletion `delete(options, k)`. -/
def delOpt (m : Opts) (k : String) : Opts :=
  m.filter (fun p => p.1 != k)

/-- Size-suffix multiplier table of the `go-humanize` library's
`ParseBytes` (`bytesSizeTable`): decimal suffixes are powers of 1000,
binary (`i`) suffixes are powers of 1024. -/
def sizeMul : String → Option Nat
  | "" => some 1
  | "b" => some 1
  | "kib" => some 1024
  | "kb" => some 1000
  | "ki" => some 1024
  | "k" => some 1000
  | "mib" => some (1024 ^ 2)
  | "mb" => some (1000 ^ 2)
  | "mi" => some (1024 ^ 2)
  | "m" => some (1000 ^ 2)
  | "gib" => some (1024 ^ 3)
  | "gb" => some (1000 ^ 3)
  | "gi" => some (1024 ^ 3)
  | "g" => some (1000 ^ 3)
  | "tib" => some (1024 ^ 4)
  | "tb" => some (1000 ^ 4)
  | "ti" => some (1024 ^ 4)
  | "t" => some (1000 ^ 4)
  | "pib" => some (1024 ^ 5)
  | "pb" => some (1000 ^ 5)
  | "pi" => some (1024 ^ 5)
  | "p" => some (1000 ^ 5)
  | "eib" => some (1024 ^ 6)
  | "eb" => some (1000 ^ 6)
  | "ei" => some (1024 ^ 6)
  | "e" => some (1000 ^ 6)
  | _ => none

/-- Whitespace test of `strings.TrimSpace` restricted to ASCII
whitespace. -/
def isWs (c : Char) : Bool :=
  c == ' ' || c == '\t' || c == '\n' || c == '\r'

/-- Trim of leading and trailing whitespace over the character list. -/
def trimChars (cs : List Char) : List Char :=
  ((cs.dropWhile isWs).reverse.dropWhile isWs).reverse

/-- ASCII lowercase conversion of a single character. -/
def lowerChar : Char → Char
  | 'A' => 'a' | 'B' => 'b' | 'C' => 'c' | 'D' => 'd' | 'E' => 'e'
  | 'F' => 'f' | 'G' => 'g' | 'H' => 'h' | 'I' => 'i' | 'J' => 'j'
  | 'K' => 'k' | 'L' => 'l' | 'M' => 'm' | 'N' => 'n' | 'O' => 'o'
  | 'P' => 'p' | 'Q' => 'q' | 'R' => 'r' | 'S' => 's' | 'T' => 't'
  | 'U' => 'u' | 'V' => 'v' | 'W' => 'w' | 'X' => 'x' | 'Y' => 'y'
  | 'Z' => 'z'
  | c => c

/-- Numeric value of a decimal digit character. -/
def digitVal : Char → Nat
  | '0' => 0 | '1' => 1 | '2' => 2 | '3' => 3 | '4' => 4
  | '5' => 5 | '6' => 6 | '7' => 7 | '8' => 8 | '9' => 9
  | _ => 0

/-- Decimal parse of a character list: defined (like
`strconv.ParseFloat` on the integer inputs modelled here) only when
the list is nonempty and all digits. -/
def charsToNat? (cs : List Char) : Option Nat :=
  if cs ≠ [] ∧ cs.all Char.isDigit then
    some (cs.foldl (fun n c => n * 10 + digitVal c) 0)
  else none

/-- Model of `humanize.ParseBytes` (external dependency
`github.com/dustin/go-humanize`, not vendored under `src/`): the
leading run of digits/`.`/`,` is the numeric part (commas stripped),
the rest is a whitespace-trimmed, case-insensitive size suffix looked
up in `sizeMul`. The Go original parses the numeric part as a float;
this model covers the integer-valued numeric parts the provisioner
ever passes (decimal byte counts and strings such as `"10G"`), on
which float parsing is exact, and returns `none` where the original
returns an error (empty/fractional numeric part, unknown suffix,
overflow). -/
def parseBytes (s : String) : Option Nat :=
  let cs := s.toList
  let numPart := cs.takeWhile (fun c => c.isDigit || c == '.' || c == ',')
  let suffix := String.mk ((trimChars (cs.drop numPart.length)).map lowerChar)
  let numStr := numPart.filter (fun c => c != ',')
  match charsToNat? numStr with
  | none => none
  | some n =>
    match sizeMul suffix with
    | none => none
    | some m => if n * m < 2 ^ 64 then some (n * m) else none

/-- A created ploop volume: its descriptor path, its size in KB as
passed to the ploop tool, and the path of its backing delta image. -/
structure VolRec where
  path : String
  sizeKB : Nat
  image : String
deriving DecidableEq

/-- A credential secret (`v1.Secret`): the cluster name and password
byte blobs, and the object's finalizer list. -/
structure Secret where
  clusterName : String
  clusterPassword : String
  finalizers : List String
deriving DecidableEq

/-- System state threaded through the engine: filesystem objects
(directories, ploop volumes, delta image files), the vstorage mount
table (local path, cluster name), the secret store keyed by
(namespace, name), and event counters used to state frame conditions
(secret reads, patch attempts, auth attempts, mount and bind-mount
attempts, unmounted paths). -/
structure SysState where
  dirs : List String
  volumes : List VolRec
  images : List String
  mounts : List (String × String)
  secrets : String × String → Option Secret
  secretReads : Nat
  patches : Nat
  auths : Nat
  mountCalls : Nat
  bindCalls : Nat
  unmounts : List String

/-- Success oracles for the external fallible operations, plus the
per-process provisioner identity and the UUID generated in the call. -/
structure Env where
  provisionerID : String
  newUUID : String
  sysMountpoint : String → String
  authOk : String → String → Bool
  mountOk : String → Bool
  bindOk : String → Bool
  ploopCreateOk : Bool
  attrOk : String → String → Bool
  volDeleteOk : Bool
  patchOk : Bool

/-- True when `q` is `p` itself or lies strictly below directory `p`. -/
def underPath (p q : String) : Bool :=
  p == q || (p ++ "/").toList.isPrefixOf q.toList

/-- Model of `os.MkdirAll`: records the target directory; an existing
directory is not an error (parent components are not tracked, no claim
inspects them). -/
def mkdirAll (p : String) (s : SysState) : SysState :=
  if p ∈ s.dirs then s else { s with dirs := p :: s.dirs }

/-- Model of `os.RemoveAll p`: removes every filesystem object at or
below `p`. -/
def removeAllFS (p : String) (s : SysState) : SysState :=
  { s with
    dirs := s.dirs.filter (fun d => !underPath p d)
    volumes := s.volumes.filter (fun r => !underPath p r.path)
    images := s.images.filter (fun f => !underPath p f) }

/-- Record a live vstorage mount of `cluster` at local path `mount`. -/
def addMount (mount cluster : String) (s : SysState) : SysState :=
  { s with mounts := (mount, cluster) :: s.mounts }

/-- Model of `vstorage.IsVstorage(path)`: is some cluster live-mounted
at `path` in the mount table. -/
def isVstorage (s : SysState) (path : String) : Bool :=
  s.mounts.any (fun m => m.1 == path)

/-- Account one `Secrets(...).Get` call against the store. -/
def readSecret (s : SysState) : SysState :=
  { s with secretReads := s.secretReads + 1 }

/-- Write a secret back into the store at `key`. -/
def updSecrets (f : String × String → Option Secret) (key : String × String)
    (sec : Secret) : String × String → Option Secret :=
  fun k => if k = key then some sec else f k

/-- Model of `vzFSProvisioner.patchSecret` followed by the API-server
write: a strategic-merge patch that results in the new secret being
stored; the patch attempt is counted, and failure leaves the store
unchanged. -/
def patchSecret (env : Env) (key : String × String) (newSec : Secret)
    (s : SysState) : Except String Unit × SysState :=
  if env.patchOk then
    (Except.ok (),
      { s with
        patches := s.patches + 1
        secrets := updSecrets s.secrets key newSec })
  else
    (Except.error "patch failed", { s with patches := s.patches + 1 })

/-- Annotation key `parentProvisionerAnn = "vzFSParentProvisioner"`. -/
def parentProvisionerAnn : String := "vzFSParentProvisioner"

/-- Annotation key `vzShareAnn = "vzShare"`. -/
def vzShareAnn : String := "vzShare"

/-- Mount root `mountDir = provisionerDir + "mnt/"` (identical string
constant in the current and historical variants). -/
def mountDir : String := "/export/virtuozzo-provisioner/mnt/"

/-- Model of `path.Join` on the slash-free-suffix inputs the engine
uses (no trailing slashes, no `.`/`..` components), where it is plain
separator concatenation. -/
def pjoin (a b : String) : String := a ++ "/" ++ b

/-- Kubernetes access modes relevant to the provisioner. -/
inductive AccessMode
  | rwo
  | rom
  | rwm
deriving DecidableEq

/-- The claim fields of `options.PVC` read by the provisioner: access
modes, selector presence, requested storage bytes, claim UID and
namespace. -/
structure PVCSpec where
  accessModes : List AccessMode
  hasSelector : Bool
  requestBytes : Nat
  uid : String
  ns : String
deriving DecidableEq

/-- The fields of `controller.VolumeOptions` read by `Provision`. -/
structure VolumeOptions where
  pvc : PVCSpec
  pvName : String
  parameters : Opts
deriving DecidableEq

/-- The fields of the returned/input `v1.PersistentVolume` the engine
reads or writes: name, annotations, access modes, capacity, flexvolume
driver, secret reference and options, and the claim namespace the
platform binds onto the PV (read by `Delete` via `ClaimRef`). -/
structure PV where
  name : String
  annotations : Opts
  accessModes : List AccessMode
  capacity : Nat
  driver : String
  secretRef : String
  options : Opts
  claimRefNamespace : String
deriving DecidableEq

/-- Outcome of `Delete`: success, the distinguished
`controller.IgnoredError`, or a plain error. -/
inductive DelResult
  | ok
  | ignored (msg : String)
  | fail (msg : String)
deriving DecidableEq

namespace V1

/-- Model of `prepareVstorage` (current variant): no-op if the local
path is already a live vstorage mount; otherwise create the mount
directory, bind-mount an existing system-wide mountpoint if the
cluster has one, else authenticate and mount. The `options` argument
is unused, as in the source. -/
def prepareVstorage (env : Env) (_options : Opts)
    (clusterName clusterPassword : String) (s : SysState) :
    Except String Unit × SysState :=
  let mount := mountDir ++ clusterName
  if isVstorage s mount then
    (Except.ok (), s)
  else
    let s := mkdirAll mount s
    let p := env.sysMountpoint clusterName
    if p != "" then
      let s := { s with bindCalls := s.bindCalls + 1 }
      if env.bindOk clusterName then (Except.ok (), addMount mount clusterName s)
      else (Except.error "bind mount failed", s)
    else
      let s := { s with auths := s.auths + 1 }
      if env.authOk clusterName clusterPassword then
        let s := { s with mountCalls := s.mountCalls + 1 }
        if env.mountOk clusterName then (Except.ok (), addMount mount clusterName s)
        else (Except.error "mount failed", s)
      else (Except.error "auth failed", s)

/-- Attribute translation of `createPloop`'s second option loop:
`vzsReplicas`/`vzsTier`/`vzsEncoding`/`vzsFailureDomain` map to the
`vstorage set-attr` names, anything else to `""` (no attribute set). -/
def attrName : String → String
  | "vzsReplicas" => "replicas"
  | "vzsTier" => "tier"
  | "vzsEncoding" => "encoding"
  | "vzsFailureDomain" => "failure-domain"
  | _ => ""

/-- The `for k, v := range options` attribute loop of `createPloop`:
each recognized key runs `vstorage set-attr -R ploopPath attr=v`; the
first failure removes the whole tree under `ploopPath`
(`os.RemoveAll`) and returns the error. -/
def applyAttrs (env : Env) (ploopPath : String) :
    Opts → SysState → Except String Unit × SysState
  | [], s => (Except.ok (), s)
  | (k, v) :: rest, s =>
    let a := attrName k
    if a == "" then applyAttrs env ploopPath rest s
    else if env.attrOk a v then applyAttrs env ploopPath rest s
    else (Except.error ("Unable to set " ++ a ++ " to " ++ v), removeAllFS ploopPath s)

/-- Deltas directory option of `createPloop`: defaults to `volumePath`
when `deltasPath` is unset. -/
def cpDeltasPath (options : Opts) : String :=
  if getOpt options "deltasPath" == "" then getOpt options "volumePath"
  else getOpt options "deltasPath"

/-- The `ploopPath` computed by `createPloop` and `removePloop`:
`path.Join(mount, volumePath, volumeID)`. -/
def cpPloopPath (mount : String) (options : Opts) : String :=
  pjoin (pjoin mount (getOpt options "volumePath")) (getOpt options "volumeID")

/-- The delta image path of `createPloop`:
`path.Join(mount, deltasPath, volumeID + ".image")`. -/
def cpDeltaPath (mount : String) (options : Opts) : String :=
  pjoin (pjoin mount (cpDeltasPath options)) (getOpt options "volumeID" ++ ".image")

/-- The volume size in KB computed by `createPloop`: the parsed byte
count divided by 1024, where a parse error is discarded
(`bytes, _ := humanize.ParseBytes(size)`) leaving zero bytes. -/
def cpSizeKB (options : Opts) : Nat :=
  (parseBytes (getOpt options "size")).getD 0 / 1024

/-- Model of `ploop.PloopVolumeCreate(ploopPath, volumeSize, deltaPath)`
(external `goploop-cli`, runs `ploop volume create`): on success it
creates the volume descriptor directory at `ploopPath` and the backing
delta image file at `deltaPath`. -/
def ploopVolumeCreate (env : Env) (ploopPath : String) (sizeKB : Nat)
    (deltaPath : String) (s : SysState) : Except String Unit × SysState :=
  if env.ploopCreateOk then
    (Except.ok (),
      { s with
        dirs := ploopPath :: s.dirs
        volumes := { path := ploopPath, sizeKB := sizeKB, image := deltaPath } :: s.volumes
        images := deltaPath :: s.images })
  else (Except.error "ploop volume create failed", s)

/-- Model of `createPloop` (current variant): extract
`volumePath`/`deltasPath`/`volumeID`/`size` from the options, reject
empty required ones, parse the size (parse error discarded), create
the deltas directory, create the ploop volume, then apply placement
attributes with rollback of the `ploopPath` tree on failure. -/
def createPloop (env : Env) (mount : String) (options : Opts) (s : SysState) :
    Except String Unit × SysState :=
  let volumePath := getOpt options "volumePath"
  let volumeID := getOpt options "volumeID"
  let size := getOpt options "size"
  if volumePath == "" then (Except.error "volumePath isn't specified", s)
  else if volumeID == "" then (Except.error "volumeID isn't specified", s)
  else if size == "" then (Except.error "size isn't specified", s)
  else
    let s := mkdirAll (pjoin mount (cpDeltasPath options)) s
    match ploopVolumeCreate env (cpPloopPath mount options) (cpSizeKB options)
        (cpDeltaPath mount options) s with
    | (Except.error e, s) => (Except.error e, s)
    | (Except.ok _, s) => applyAttrs env (cpPloopPath mount options) options s

/-- Model of `removePloop`: open the ploop volume at
`path.Join(mount, volumePath, volumeID)` (fails when absent) and issue
`vol.Delete()`, which removes the volume, its descriptor directory
tree and its backing delta image. -/
def removePloop (env : Env) (mount : String) (options : Opts) (s : SysState) :
    Except String Unit × SysState :=
  let ploopPath := cpPloopPath mount options
  match s.volumes.find? (fun r => r.path == ploopPath) with
  | none => (Except.error "ploop volume open failed", s)
  | some r =>
    if env.volDeleteOk then
      (Except.ok (),
        { s with
          volumes := s.volumes.filter (fun q => q.path != ploopPath)
          images := s.images.filter (fun f => f != r.image)
          dirs := s.dirs.filter (fun d => !underPath ploopPath d) })
    else (Except.error "ploop volume delete failed", s)

/-- Access-mode admission of `Provision`: an absent list defaults to
`ReadWriteOnce`; otherwise exactly one mode is allowed and it must be
`ReadWriteOnce`. -/
def checkModes (ms : List AccessMode) : Except String (List AccessMode) :=
  match ms with
  | [] => Except.ok [AccessMode.rwo]
  | [m] =>
    if m = AccessMode.rwo then Except.ok [m]
    else Except.error "Virtuozzo flexvolume provisioner supports only ReadWriteOnce access mode"
  | _ => Except.error "Virtuozzo flexvolume provisioner supports only ReadWriteOnce access mode"

/-- The share name `fmt.Sprintf("kubernetes-dynamic-pvc-%s", options.PVC.UID)`. -/
def shareName (o : VolumeOptions) : String :=
  "kubernetes-dynamic-pvc-" ++ o.pvc.uid

/-- The storage-class option map after `Provision` sets `volumeID` and
`size`. -/
def scOpts0 (o : VolumeOptions) : Opts :=
  setOpt (setOpt o.parameters "volumeID" (shareName o)) "size" (toString o.pvc.requestBytes)

/-- The secret name read (then deleted) from the option map. -/
def secretNameOf (o : VolumeOptions) : String :=
  getOpt (scOpts0 o) "secretName"

/-- The storage-class option map after `secretName` is deleted. -/
def scOpts (o : VolumeOptions) : Opts :=
  delOpt (scOpts0 o) "secretName"

/-- The finalizer token `fmt.Sprintf("virtuozzo.com/%s-pv", uuid.NewUUID())`. -/
def finalizerOf (env : Env) : String :=
  "virtuozzo.com/" ++ env.newUUID ++ "-pv"

/-- The option map embedded into the returned PV, after `clusterName`
and `finalizer` are added. -/
def pvOpts (env : Env) (o : VolumeOptions) (clusterName : String) : Opts :=
  setOpt (setOpt (scOpts o) "clusterName" clusterName) "finalizer" (finalizerOf env)

/-- The `v1.PersistentVolume` object built by `Provision`. -/
def mkPV (env : Env) (o : VolumeOptions) (modes : List AccessMode)
    (clusterName : String) : PV :=
  { name := o.pvName
    annotations := [(parentProvisionerAnn, env.provisionerID), (vzShareAnn, shareName o)]
    accessModes := modes
    capacity := o.pvc.requestBytes
    driver := "virtuozzo/ploop"
    secretRef := secretNameOf o
    options := pvOpts env o clusterName
    claimRefNamespace := "" }

/-- Model of `Provision` (current variant): admit access modes and
selector, resolve the credential secret, ensure the cluster mount,
create the ploop volume, then record the finalizer obligation on the
secret with check-before-add; on patch failure the just-created volume
is removed (`removePloop`) and the error returned. -/
def Provision (env : Env) (o : VolumeOptions) (s : SysState) :
    Except String PV × SysState :=
  match checkModes o.pvc.accessModes with
  | Except.error e => (Except.error e, s)
  | Except.ok modes =>
    if o.pvc.hasSelector then (Except.error "claim Selector is not supported", s)
    else
      let s := readSecret s
      match s.secrets (o.pvc.ns, secretNameOf o) with
      | none => (Except.error "secret get failed", s)
      | some secret =>
        match prepareVstorage env (scOpts o) secret.clusterName secret.clusterPassword s with
        | (Except.error e, s) => (Except.error e, s)
        | (Except.ok _, s) =>
          match createPloop env (mountDir ++ secret.clusterName) (scOpts o) s with
          | (Except.error e, s) => (Except.error e, s)
          | (Except.ok _, s) =>
            let finalizer := finalizerOf env
            let pv := mkPV env o modes secret.clusterName
            if finalizer ∈ secret.finalizers then (Except.ok pv, s)
            else
              let newSecret := { secret with finalizers := secret.finalizers ++ [finalizer] }
              match patchSecret env (o.pvc.ns, secretNameOf o) newSecret s with
              | (Except.ok _, s) => (Except.ok pv, s)
              | (Except.error e, s) =>
                let (r, s) := removePloop env (mountDir ++ secret.clusterName)
                    (pvOpts env o secret.clusterName) s
                match r with
                | Except.ok _ => (Except.error e, s)
                | Except.error e2 =>
                  (Except.error ("Add finalizer error: " ++ e ++
                    "; cleanup ploop-volume error: " ++ e2), s)

/-- Removal of the first occurrence of `f`, as `Delete` does with
`append(newSecret.Finalizers[:idx], newSecret.Finalizers[idx+1:]...)`
at the first index found. -/
def removeFirst (f : String) : List String → List String
  | [] => []
  | x :: xs => if x = f then xs else x :: removeFirst f xs

/-- Model of `Delete` (current variant): verify the parent-provisioner
annotation (absent is a plain error, mismatch the ignorable outcome),
verify the share annotation, resolve the secret, ensure the mount,
remove the ploop volume, then clear the finalizer obligation — an
absent token in the options or in the secret is a logged warning and
still success, and a failed secret patch is also swallowed. -/
def Delete (env : Env) (pv : PV) (s : SysState) : DelResult × SysState :=
  match getOptQ pv.annotations parentProvisionerAnn with
  | none => (DelResult.fail "Parent provisioner name annotation not found on PV", s)
  | some ann =>
    if ann != env.provisionerID then
      (DelResult.ignored "parent provisioner name annotation on PV does not match ours", s)
    else
      match getOptQ pv.annotations vzShareAnn with
      | none => (DelResult.fail "vz share annotation not found on PV", s)
      | some _share =>
        let s := readSecret s
        match s.secrets (pv.claimRefNamespace, pv.secretRef) with
        | none => (DelResult.fail "secret get failed", s)
        | some secret =>
          match prepareVstorage env pv.options secret.clusterName secret.clusterPassword s with
          | (Except.error e, s) => (DelResult.fail e, s)
          | (Except.ok _, s) =>
            match removePloop env (mountDir ++ secret.clusterName) pv.options s with
            | (Except.error e, s) => (DelResult.fail e, s)
            | (Except.ok _, s) =>
              match getOptQ pv.options "finalizer" with
              | none => (DelResult.ok, s)
              | some finalizer =>
                if finalizer ∈ secret.finalizers then
                  let newSecret :=
                    { secret with finalizers := removeFirst finalizer secret.finalizers }
                  match patchSecret env (pv.claimRefNamespace, pv.secretRef) newSecret s with
                  | (Except.ok _, s) => (DelResult.ok, s)
                  | (Except.error _, s) => (DelResult.ok, s)
                else (DelResult.ok, s)

end V1

/-- Model of `syscall.Unmount(mount, syscall.MNT_DETACH)`: detaches the
mount from the table and records the unmount event. -/
def unmountDetach (mount : String) (s : SysState) : SysState :=
  { s with
    mounts := s.mounts.filter (fun m => m.1 != mount)
    unmounts := mount :: s.unmounts }

namespace V0

/-- Model of `ploop.Create(&ploop.CreateParam{Size: volume_size, File:
ploop_path + "/" + volumeId})` (external `goploop-cli`): creates the
ploop image file at `file` inside the already-created volume
directory. -/
def ploopCreate (env : Env) (file : String) (sizeKB : Nat) (s : SysState) :
    Except String Unit × SysState :=
  if env.ploopCreateOk then
    (Except.ok (),
      { s with
        volumes := { path := file, sizeKB := sizeKB, image := file } :: s.volumes
        images := file :: s.images })
  else (Except.error "ploop create failed", s)

/-- The `ploop_path` of the historical `createPloop`:
`mount + "/" + options["volumePath"] + "/" + options["volumeId"]`
(note the lowercase-d `volumeId` key of this variant). -/
def cpPloopPath (mount : String) (options : Opts) : String :=
  pjoin (pjoin mount (getOpt options "volumePath")) (getOpt options "volumeId")

/-- Model of `createPloop` (historical variant, `part_000`): validate
`volumePath`/`volumeId`/`size`, parse the size (parse error
discarded), make the volume directory, apply placement attributes
(rollback by `os.RemoveAll(ploop_path)` on failure) and only then
create the ploop volume file inside the directory. -/
def createPloop (env : Env) (mount : String) (options : Opts) (s : SysState) :
    Except String Unit × SysState :=
  let volumePath := getOpt options "volumePath"
  let volumeId := getOpt options "volumeId"
  let size := getOpt options "size"
  if volumePath == "" then (Except.error "volumePath isn't specified", s)
  else if volumeId == "" then (Except.error "volumeId isn't specified", s)
  else if size == "" then (Except.error "size isn't specified", s)
  else
    let sizeKB := (parseBytes size).getD 0 / 1024
    let ploopPath := cpPloopPath mount options
    let s := mkdirAll ploopPath s
    match V1.applyAttrs env ploopPath options s with
    | (Except.error e, s) => (Except.error e, s)
    | (Except.ok _, s) => ploopCreate env (pjoin ploopPath (getOpt options "volumeId")) sizeKB s

/-- The share name of the historical `Provision`:
`fmt.Sprintf("kubernetes-dynamic-pvc-%s", uuid.NewUUID())`. -/
def shareName (env : Env) : String :=
  "kubernetes-dynamic-pvc-" ++ env.newUUID

/-- The historical storage-class option map after `volumeId` and
`size` are set. -/
def scOptsPre (env : Env) (o : VolumeOptions) : Opts :=
  setOpt (setOpt o.parameters "volumeId" (shareName env)) "size" (toString o.pvc.requestBytes)

/-- The secret name read (then deleted) from the historical option map. -/
def secretNameOf (env : Env) (o : VolumeOptions) : String :=
  getOpt (scOptsPre env o) "secretName"

/-- The historical storage-class option map after `secretName` is
deleted. -/
def scOpts (env : Env) (o : VolumeOptions) : Opts :=
  delOpt (scOptsPre env o) "secretName"

/-- Model of `Provision` (historical variant, `part_000`): no
access-mode admission, selector rejection, secret resolution, mount
preparation, then — with `defer syscall.Unmount(MountDir+name,
syscall.MNT_DETACH)` pending — ploop creation and PV construction; the
deferred detach-unmount runs on every return after a successful
`prepareVstorage` (`part_000`'s `prepareVstorage` is textually
identical to the current one, so `V1.prepareVstorage` is reused). -/
def Provision (env : Env) (o : VolumeOptions) (s : SysState) :
    Except String PV × SysState :=
  if o.pvc.hasSelector then (Except.error "claim Selector is not supported", s)
  else
    let s := readSecret s
    match s.secrets (o.pvc.ns, secretNameOf env o) with
    | none => (Except.error "secret get failed", s)
    | some secret =>
      match V1.prepareVstorage env (scOpts env o) secret.clusterName secret.clusterPassword s with
      | (Except.error e, s) => (Except.error e, s)
      | (Except.ok _, s) =>
        match createPloop env (mountDir ++ secret.clusterName) (scOpts env o) s with
        | (Except.error e, s) =>
          (Except.error e, unmountDetach (mountDir ++ secret.clusterName) s)
        | (Except.ok _, s) =>
          let pv : PV :=
            { name := o.pvName
              annotations := [(parentProvisionerAnn, env.provisionerID),
                              (vzShareAnn, shareName env)]
              accessModes := o.pvc.accessModes
              capacity := o.pvc.requestBytes
              driver := "virtuozzo/ploop"
              secretRef := secretNameOf env o
              options := scOpts env o
              claimRefNamespace := "" }
          (Except.ok pv, unmountDetach (mountDir ++ secret.clusterName) s)

end V0

/-- An environment in which every external operation succeeds and no
system-wide mountpoint pre-exists. -/
def envAll : Env :=
  { provisionerID := "prov-1"
    newUUID := "u1"
    sysMountpoint := fun _ => ""
    authOk := fun _ _ => true
    mountOk := fun _ => true
    bindOk := fun _ => true
    ploopCreateOk := true
    attrOk := fun _ _ => true
    volDeleteOk := true
    patchOk := true }

/-- The empty initial system state. -/
def s0 : SysState :=
  { dirs := []
    volumes := []
    images := []
    mounts := []
    secrets := fun _ => none
    secretReads := 0
    patches := 0
    auths := 0
    mountCalls := 0
    bindCalls := 0
    unmounts := [] }

deriving instance DecidableEq for Except

theorem readSecret_secrets (s : SysState) : (readSecret s).secrets = s.secrets := rfl

theorem readSecret_mounts (s : SysState) : (readSecret s).mounts = s.mounts := rfl

theorem readSecret_volumes (s : SysState) : (readSecret s).volumes = s.volumes := rfl

theorem readSecret_unmounts (s : SysState) : (readSecret s).unmounts = s.unmounts := rfl

/-- Successful attribute application leaves the state unchanged. -/
theorem applyAttrs_ok_eq {env : Env} {p : String} {l : Opts} {s s' : SysState} {u : Unit}
    (h : V1.applyAttrs env p l s = (Except.ok u, s')) : s' = s := by
  induction l with
  | nil =>
    simp only [V1.applyAttrs, Prod.mk.injEq] at h
    exact h.2.symm
  | cons kv rest ih =>
    obtain ⟨k, v⟩ := kv
    simp only [V1.applyAttrs] at h
    by_cases ha : V1.attrName k == ""
    · rw [if_pos ha] at h; exact ih h
    · rw [if_neg ha] at h
      by_cases hb : env.attrOk (V1.attrName k) v
      · rw [if_pos hb] at h; exact ih h
      · rw [if_neg hb] at h; simp at h

/-- When every recognized attribute in the option list succeeds, the
attribute loop succeeds without touching the state. -/
theorem applyAttrs_ok_of {env : Env} {p : String} {l : Opts} (s : SysState)
    (h : ∀ kv ∈ l, V1.attrName kv.1 = "" ∨ env.attrOk (V1.attrName kv.1) kv.2 = true) :
    V1.applyAttrs env p l s = (Except.ok (), s) := by
  induction l with
  | nil => rfl
  | cons kv rest ih =>
    obtain ⟨k, v⟩ := kv
    have hrest : ∀ kv ∈ rest, V1.attrName kv.1 = "" ∨ env.attrOk (V1.attrName kv.1) kv.2 = true :=
      fun kv hm => h kv (List.mem_cons_of_mem _ hm)
    have hkv := h (k, v) (List.mem_cons_self _ _)
    simp only [V1.applyAttrs]
    rcases hkv with hk | hk
    · rw [if_pos (by simp [hk])]; exact ih hrest
    · by_cases ha : V1.attrName k == ""
      · rw [if_pos ha]; exact ih hrest
      · rw [if_neg ha, if_pos hk]; exact ih hrest

/-- When some recognized attribute in the option list fails, the
attribute loop returns an error after removing the tree under `p`. -/
theorem applyAttrs_fail {env : Env} {p : String} {l : Opts} (s : SysState)
    (h : ∃ kv ∈ l, V1.attrName kv.1 ≠ "" ∧ env.attrOk (V1.attrName kv.1) kv.2 = false) :
    ∃ msg, V1.applyAttrs env p l s = (Except.error msg, removeAllFS p s) := by
  induction l with
  | nil => simp at h
  | cons kv rest ih =>
    obtain ⟨k, v⟩ := kv
    simp only [V1.applyAttrs]
    by_cases ha : V1.attrName k == ""
    · rw [if_pos ha]
      apply ih
      rcases h with ⟨kv', hmem, hne, hfail⟩
      rcases List.mem_cons.mp hmem with heq | hmem'
      · exfalso; apply hne; subst heq; exact beq_iff_eq.mp ha
      · exact ⟨kv', hmem', hne, hfail⟩
    · rw [if_neg ha]
      by_cases hb : env.attrOk (V1.attrName k) v
      · rw [if_pos hb]
        apply ih
        rcases h with ⟨kv', hmem, hne, hfail⟩
        rcases List.mem_cons.mp hmem with heq | hmem'
        · exfalso; subst heq; rw [hb] at hfail; simp at hfail
        · exact ⟨kv', hmem', hne, hfail⟩
      · rw [if_neg hb]
        exact ⟨_, rfl⟩

namespace V1

/-- The volume record created by a successful `createPloop`. -/
def cpRec (mount : String) (opts : Opts) : VolRec :=
  { path := cpPloopPath mount opts, sizeKB := cpSizeKB opts, image := cpDeltaPath mount opts }

/-- The state after `createPloop`'s deltas-directory creation and
successful ploop volume creation (before the attribute loop). -/
def cpOkState (mount : String) (opts : Opts) (s : SysState) : SysState :=
  let s1 := mkdirAll (pjoin mount (cpDeltasPath opts)) s
  { s1 with
    dirs := cpPloopPath mount opts :: s1.dirs
    volumes := cpRec mount opts :: s1.volumes
    images := cpDeltaPath mount opts :: s1.images }

end V1

/-- A fully successful `createPloop` run returns the explicit success
state. -/
theorem createPloop_ok_spec (env : Env) (mount : String) (opts : Opts) (s : SysState)
    (h1 : getOpt opts "volumePath" ≠ "") (h2 : getOpt opts "volumeID" ≠ "")
    (h3 : getOpt opts "size" ≠ "") (h4 : env.ploopCreateOk = true)
    (h5 : ∀ kv ∈ opts, V1.attrName kv.1 = "" ∨ env.attrOk (V1.attrName kv.1) kv.2 = true) :
    V1.createPloop env mount opts s = (Except.ok (), V1.cpOkState mount opts s) := by
  simp only [V1.createPloop, V1.ploopVolumeCreate, h4, if_true]
  rw [if_neg (by simpa using h1), if_neg (by simpa using h2), if_neg (by simpa using h3)]
  exact applyAttrs_ok_of _ h5

/-- A `createPloop` run whose volume creation succeeds but whose
attribute loop fails returns an error with the `ploopPath` tree
removed from the success state. -/
theorem createPloop_fail_spec (env : Env) (mount : String) (opts : Opts) (s : SysState)
    (h1 : getOpt opts "volumePath" ≠ "") (h2 : getOpt opts "volumeID" ≠ "")
    (h3 : getOpt opts "size" ≠ "") (h4 : env.ploopCreateOk = true)
    (h5 : ∃ kv ∈ opts, V1.attrName kv.1 ≠ "" ∧ env.attrOk (V1.attrName kv.1) kv.2 = false) :
    ∃ msg, V1.createPloop env mount opts s =
      (Except.error msg, removeAllFS (V1.cpPloopPath mount opts) (V1.cpOkState mount opts s)) := by
  obtain ⟨msg, hfail⟩ :=
    @applyAttrs_fail env (V1.cpPloopPath mount opts) opts (V1.cpOkState mount opts s) h5
  refine ⟨msg, ?_⟩
  simp only [V1.createPloop, V1.ploopVolumeCreate, h4, if_true]
  rw [if_neg (by simpa using h1), if_neg (by simpa using h2), if_neg (by simpa using h3)]
  exact hfail

/-- C1 (amended): for every `createPloop` call (current variant) whose
required options are present, whose volume creation succeeds and whose
attributes all apply, the created volume's size in KB is the parsed
byte count divided by 1024 with a parse failure silently treated as
zero bytes — so `"10G"` (decimal gigabytes, 10^10 bytes) yields
9,765,625 KB, and an unparseable size is not rejected: the call
proceeds and creates a zero-sized volume. -/
theorem claim_C1_size_normalization (env : Env) (mount : String) (opts : Opts) (s : SysState)
    (h1 : getOpt opts "volumePath" ≠ "") (h2 : getOpt opts "volumeID" ≠ "")
    (h3 : getOpt opts "size" ≠ "") (h4 : env.ploopCreateOk = true)
    (h5 : ∀ kv ∈ opts, V1.attrName kv.1 = "" ∨ env.attrOk (V1.attrName kv.1) kv.2 = true) :
    (V1.createPloop env mount opts s).1 = Except.ok () ∧
    { path := V1.cpPloopPath mount opts,
      sizeKB := (parseBytes (getOpt opts "size")).getD 0 / 1024,
      image := V1.cpDeltaPath mount opts } ∈ (V1.createPloop env mount opts s).2.volumes := by
  rw [createPloop_ok_spec env mount opts s h1 h2 h3 h4 h5]
  exact ⟨rfl, List.mem_cons_self _ _⟩

/-- C1 witness: instantiation of the amended claim at size `"10G"`. -/
theorem claim_C1_witness :
    (V1.createPloop envAll "/m" [("volumePath", "v"), ("volumeID", "i"), ("size", "10G")] s0).1 =
      Except.ok () ∧
    { path := V1.cpPloopPath "/m" [("volumePath", "v"), ("volumeID", "i"), ("size", "10G")],
      sizeKB :=
        (parseBytes (getOpt [("volumePath", "v"), ("volumeID", "i"), ("size", "10G")] "size")).getD 0
          / 1024,
      image := V1.cpDeltaPath "/m" [("volumePath", "v"), ("volumeID", "i"), ("size", "10G")] } ∈
      (V1.createPloop envAll "/m" [("volumePath", "v"), ("volumeID", "i"), ("size", "10G")] s0).2.volumes :=
  claim_C1_size_normalization envAll "/m" [("volumePath", "v"), ("volumeID", "i"), ("size", "10G")]
    s0 (by decide) (by decide) (by decide) rfl (by decide)

/-- C1 counterexample: with size `"10G"` the created volume is
9,765,625 KB, not the claimed 10,485,760 KB; and with the unparseable
size `"abc"` the call does not return a validation error — it creates
the directories and a zero-sized volume. -/
theorem claim_C1_counterexample :
    (V1.createPloop envAll "/m" [("volumePath", "v"), ("volumeID", "i"), ("size", "10G")] s0).2.volumes =
      [{ path := "/m/v/i", sizeKB := 9765625, image := "/m/v/i.image" }] ∧
    (∀ r ∈ (V1.createPloop envAll "/m"
        [("volumePath", "v"), ("volumeID", "i"), ("size", "10G")] s0).2.volumes,
      r.sizeKB ≠ 10485760) ∧
    (V1.createPloop envAll "/m" [("volumePath", "v"), ("volumeID", "i"), ("size", "abc")] s0).1 =
      Except.ok () ∧
    (V1.createPloop envAll "/m" [("volumePath", "v"), ("volumeID", "i"), ("size", "abc")] s0).2.dirs =
      ["/m/v/i", "/m/v"] ∧
    { path := "/m/v/i", sizeKB := 0, image := "/m/v/i.image" } ∈
      (V1.createPloop envAll "/m" [("volumePath", "v"), ("volumeID", "i"), ("size", "abc")] s0).2.volumes := by
  decide

/-- C2 (amended): for every `createPloop` call (current variant) in
which applying a placement attribute fails, the error is returned and
the volume directory tree rooted at `ploopPath` is removed — but the
backing delta image, which is created outside that tree, is not
removed and is left behind. -/
theorem claim_C2_rollback (env : Env) (mount : String) (opts : Opts) (s : SysState)
    (h1 : getOpt opts "volumePath" ≠ "") (h2 : getOpt opts "volumeID" ≠ "")
    (h3 : getOpt opts "size" ≠ "") (h4 : env.ploopCreateOk = true)
    (h5 : ∃ kv ∈ opts, V1.attrName kv.1 ≠ "" ∧ env.attrOk (V1.attrName kv.1) kv.2 = false) :
    (∃ msg, (V1.createPloop env mount opts s).1 = Except.error msg) ∧
    (∀ q, underPath (V1.cpPloopPath mount opts) q = true →
      q ∉ (V1.createPloop env mount opts s).2.dirs ∧
      (∀ r ∈ (V1.createPloop env mount opts s).2.volumes, r.path ≠ q)) ∧
    (underPath (V1.cpPloopPath mount opts) (V1.cpDeltaPath mount opts) = false →
      V1.cpDeltaPath mount opts ∈ (V1.createPloop env mount opts s).2.images) := by
  obtain ⟨msg, hmain⟩ := createPloop_fail_spec env mount opts s h1 h2 h3 h4 h5
  rw [hmain]
  refine ⟨⟨msg, rfl⟩, ?_, ?_⟩
  · intro q hq
    constructor
    · intro hmem
      rw [removeAllFS] at hmem
      simp only [List.mem_filter] at hmem
      rw [hq] at hmem
      simp at hmem
    · intro r hmem
      rw [removeAllFS] at hmem
      simp only [List.mem_filter] at hmem
      intro hpath
      rw [hpath, hq] at hmem
      simp at hmem
  · intro hout
    rw [removeAllFS]
    simp only [List.mem_filter]
    exact ⟨by simp [V1.cpOkState], by rw [hout]; rfl⟩

/-- An environment in which setting the `tier` attribute fails and
everything else succeeds. -/
def envTF : Env := { envAll with attrOk := fun a _ => a != "tier" }

/-- Concrete `createPloop` options with distinct `deltasPath` and a
`vzsTier` placement attribute. -/
def optsC2 : Opts :=
  [("volumePath", "v"), ("deltasPath", "d"), ("volumeID", "i"), ("size", "1G"), ("vzsTier", "3")]

/-- C2 witness: instantiation of the amended claim at a failing
`vzsTier` attribute. -/
theorem claim_C2_witness :
    (∃ msg, (V1.createPloop envTF "/m" optsC2 s0).1 = Except.error msg) ∧
    (∀ q, underPath (V1.cpPloopPath "/m" optsC2) q = true →
      q ∉ (V1.createPloop envTF "/m" optsC2 s0).2.dirs ∧
      (∀ r ∈ (V1.createPloop envTF "/m" optsC2 s0).2.volumes, r.path ≠ q)) ∧
    (underPath (V1.cpPloopPath "/m" optsC2) (V1.cpDeltaPath "/m" optsC2) = false →
      V1.cpDeltaPath "/m" optsC2 ∈ (V1.createPloop envTF "/m" optsC2 s0).2.images) :=
  claim_C2_rollback envTF "/m" optsC2 s0 (by decide) (by decide) (by decide) rfl
    ⟨("vzsTier", "3"), by decide, by decide, by decide⟩

/-- C2 counterexample: a failing `vzsTier` attribute rolls back the
volume directory tree and returns the error, yet the backing delta
image created by the same call still exists afterwards — so the claim
that no backing image created by the call remains is false. -/
theorem claim_C2_counterexample :
    (V1.createPloop envTF "/m" optsC2 s0).1 = Except.error "Unable to set tier to 3" ∧
    "/m/d/i.image" ∈ (V1.createPloop envTF "/m" optsC2 s0).2.images ∧
    (V1.createPloop envTF "/m" optsC2 s0).2.dirs = ["/m/d"] ∧
    (V1.createPloop envTF "/m" optsC2 s0).2.volumes = [] := by
  decide

/-- C4: a `Delete` on a handle whose parent-provisioner annotation is
present but differs from the engine's identity returns the ignorable
"not owned by us" outcome with the state completely unchanged — no
filesystem mutation, no mount, no secret read and no patch. -/
theorem claim_C4_ownership_gating (env : Env) (pv : PV) (s : SysState) (ann : String)
    (h1 : getOptQ pv.annotations parentProvisionerAnn = some ann)
    (h2 : ann ≠ env.provisionerID) :
    V1.Delete env pv s =
      (DelResult.ignored "parent provisioner name annotation on PV does not match ours", s) := by
  simp only [V1.Delete, h1]
  rw [if_pos (by simpa using h2)]

/-- Concrete handle owned by a different provisioner. -/
def pvC4 : PV :=
  { name := "pv1"
    annotations := [(parentProvisionerAnn, "other"), (vzShareAnn, "sh")]
    accessModes := [AccessMode.rwo]
    capacity := 1024
    driver := "virtuozzo/ploop"
    secretRef := "sec"
    options := []
    claimRefNamespace := "ns" }

/-- C4 witness: instantiation of the ownership gating claim. -/
theorem claim_C4_witness :
    V1.Delete envAll pvC4 s0 =
      (DelResult.ignored "parent provisioner name annotation on PV does not match ours", s0) :=
  claim_C4_ownership_gating envAll pvC4 s0 "other" (by decide) (by decide)

/-- C9: `Provision` returns a validation error with the state
completely unchanged — before any secret read, mount, volume creation
or other filesystem mutation — whenever the claim's access modes are
not the single `ReadWriteOnce` mode (an empty list defaults to it), or
the claim carries a selector (every selector is unsupported in this
variant). -/
theorem claim_C9_request_admission (env : Env) (o : VolumeOptions) (s : SysState)
    (h : (∃ e, V1.checkModes o.pvc.accessModes = Except.error e) ∨ o.pvc.hasSelector = true) :
    ∃ e, V1.Provision env o s = (Except.error e, s) := by
  rcases h with ⟨e, he⟩ | hsel
  · exact ⟨e, by simp only [V1.Provision, he]⟩
  · cases hm : V1.checkModes o.pvc.accessModes with
    | error e => exact ⟨e, by simp only [V1.Provision, hm]⟩
    | ok m =>
      exact ⟨"claim Selector is not supported", by simp [V1.Provision, hm, hsel]⟩

/-- Concrete request with a `ReadWriteMany` access-mode constraint. -/
def oC9 : VolumeOptions :=
  { pvc := { accessModes := [AccessMode.rwm], hasSelector := false, requestBytes := 1024,
             uid := "u", ns := "ns" }
    pvName := "pv"
    parameters := [("volumePath", "v"), ("secretName", "sec")] }

/-- C9 witness: a `ReadWriteMany` request is rejected without any
state change. -/
theorem claim_C9_witness : ∃ e, V1.Provision envAll oC9 s0 = (Except.error e, s0) :=
  claim_C9_request_admission envAll oC9 s0
    (Or.inl ⟨"Virtuozzo flexvolume provisioner supports only ReadWriteOnce access mode", by decide⟩)

/-- C10 (amended): a handle lacking the parent-provisioner annotation
gets a plain error, and an owned handle (identity matches) lacking the
share annotation gets a plain error, both with no state change; a
handle lacking the share annotation whose owner annotation mismatches
is instead short-circuited to the ignorable outcome by the ownership
check, which runs first. -/
theorem claim_C10_missing_metadata (env : Env) (pv : PV) (s : SysState) :
    (getOptQ pv.annotations parentProvisionerAnn = none →
      V1.Delete env pv s =
        (DelResult.fail "Parent provisioner name annotation not found on PV", s)) ∧
    (getOptQ pv.annotations parentProvisionerAnn = some env.provisionerID →
      getOptQ pv.annotations vzShareAnn = none →
      V1.Delete env pv s = (DelResult.fail "vz share annotation not found on PV", s)) := by
  constructor
  · intro h
    simp only [V1.Delete, h]
  · intro h1 h2
    simp [V1.Delete, h1, h2]

/-- Concrete handle with no annotations at all. -/
def pvC10a : PV :=
  { name := "pv1"
    annotations := []
    accessModes := [AccessMode.rwo]
    capacity := 1024
    driver := "virtuozzo/ploop"
    secretRef := "sec"
    options := []
    claimRefNamespace := "ns" }

/-- Concrete owned handle lacking only the share annotation. -/
def pvC10b : PV :=
  { pvC10a with annotations := [(parentProvisionerAnn, "prov-1")] }

/-- Concrete foreign-owned handle lacking the share annotation. -/
def pvC10c : PV :=
  { pvC10a with annotations := [(parentProvisionerAnn, "someone-else")] }

/-- C10 witness: instantiation of the amended claim at both missing
annotations. -/
theorem claim_C10_witness :
    V1.Delete envAll pvC10a s0 =
      (DelResult.fail "Parent provisioner name annotation not found on PV", s0) ∧
    V1.Delete envAll pvC10b s0 =
      (DelResult.fail "vz share annotation not found on PV", s0) :=
  ⟨(claim_C10_missing_metadata envAll pvC10a s0).1 (by decide),
   (claim_C10_missing_metadata envAll pvC10b s0).2 (by decide) (by decide)⟩

/-- C10 counterexample: a handle lacking the share annotation entirely
whose owner annotation mismatches yields the ignorable outcome, not
the plain non-ignorable error the claim requires for every handle
lacking the share annotation. -/
theorem claim_C10_counterexample :
    (V1.Delete envAll pvC10c s0).1 =
      DelResult.ignored "parent provisioner name annotation on PV does not match ours" := by
  decide

/-- C7: after a successful `prepareVstorage` for a cluster the fixed
local path `mountDir ++ cluster` is a live vstorage mount, and a
second call for the same cluster is a pure no-op: it observes the live
mount, performs no directory creation, authentication, mount or
bind-mount (the state is returned unchanged), and succeeds with the
same fixed local path. -/
theorem claim_C7_idempotent_mount (env : Env) (opts opts2 : Opts) (c pw : String)
    (s s₁ : SysState)
    (h : V1.prepareVstorage env opts c pw s = (Except.ok (), s₁)) :
    V1.prepareVstorage env opts2 c pw s₁ = (Except.ok (), s₁) ∧
    isVstorage s₁ (mountDir ++ c) = true := by
  have hm : isVstorage s₁ (mountDir ++ c) = true := by
    simp only [V1.prepareVstorage] at h
    split at h
    · next hc =>
      injection h with h1 h2
      subst h2
      exact hc
    · next hc =>
      split at h
      · split at h
        · injection h with h1 h2
          subst h2
          simp [addMount, isVstorage]
        · simp at h
      · split at h
        · split at h
          · injection h with h1 h2
            subst h2
            simp [addMount, isVstorage]
          · simp at h
        · simp at h
  refine ⟨?_, hm⟩
  simp only [V1.prepareVstorage, hm, if_true]

/-- C7 witness: instantiation of the idempotent-mount claim at a
first-time mount from the empty state. -/
theorem claim_C7_witness :
    V1.prepareVstorage envAll [] "c" "p" (V1.prepareVstorage envAll [] "c" "p" s0).2 =
      (Except.ok (), (V1.prepareVstorage envAll [] "c" "p" s0).2) ∧
    isVstorage (V1.prepareVstorage envAll [] "c" "p" s0).2 (mountDir ++ "c") = true :=
  claim_C7_idempotent_mount envAll [] [] "c" "p" s0 (V1.prepareVstorage envAll [] "c" "p" s0).2 rfl

theorem isVstorage_readSecret (s : SysState) (p : String) :
    isVstorage (readSecret s) p = isVstorage s p := rfl

/-- C8: a `Delete` on an owned handle whose ownership and share checks
pass, whose mount is live and whose volume removal succeeds returns
success even when the finalizer token is absent from the handle's
options or absent from the secret's finalizer list — the absence is
never surfaced as a failure. -/
theorem claim_C8_benign_clear (env : Env) (pv : PV) (s : SysState) (sec : Secret) (r : VolRec)
    (hann : getOptQ pv.annotations parentProvisionerAnn = some env.provisionerID)
    (hshare : ∃ sh, getOptQ pv.annotations vzShareAnn = some sh)
    (hsec : s.secrets (pv.claimRefNamespace, pv.secretRef) = some sec)
    (hmnt : isVstorage s (mountDir ++ sec.clusterName) = true)
    (hvol : s.volumes.find?
      (fun q => q.path == V1.cpPloopPath (mountDir ++ sec.clusterName) pv.options) = some r)
    (hdel : env.volDeleteOk = true)
    (htok : getOptQ pv.options "finalizer" = none ∨
      ∃ f, getOptQ pv.options "finalizer" = some f ∧ f ∉ sec.finalizers) :
    (V1.Delete env pv s).1 = DelResult.ok := by
  obtain ⟨sh, hsh⟩ := hshare
  rcases htok with hnone | ⟨f, hf, hnm⟩
  · simp [V1.Delete, hann, hsh, readSecret_secrets, hsec, V1.prepareVstorage,
      isVstorage_readSecret, hmnt, V1.removePloop, readSecret_volumes, hvol, hdel, hnone]
  · simp [V1.Delete, hann, hsh, readSecret_secrets, hsec, V1.prepareVstorage,
      isVstorage_readSecret, hmnt, V1.removePloop, readSecret_volumes, hvol, hdel, hf, hnm]

/-- Concrete secret whose finalizer list does not contain the handle's
token. -/
def secC8 : Secret := { clusterName := "c", clusterPassword := "p", finalizers := ["other-token"] }

/-- Concrete existing volume record for the C8 handle. -/
def recC8 : VolRec :=
  { path := "/export/virtuozzo-provisioner/mnt/c/v/i"
    sizeKB := 1
    image := "/export/virtuozzo-provisioner/mnt/c/v/i.image" }

/-- Concrete state with a live mount, the volume and the secret. -/
def sC8 : SysState :=
  { s0 with
    volumes := [recC8]
    mounts := [("/export/virtuozzo-provisioner/mnt/c", "c")]
    secrets := fun k => if k = ("ns", "sec") then some secC8 else none }

/-- Concrete owned handle whose options carry no finalizer token. -/
def pvC8 : PV :=
  { name := "pv1"
    annotations := [(parentProvisionerAnn, "prov-1"), (vzShareAnn, "sh")]
    accessModes := [AccessMode.rwo]
    capacity := 1024
    driver := "virtuozzo/ploop"
    secretRef := "sec"
    options := [("volumePath", "v"), ("volumeID", "i")]
    claimRefNamespace := "ns" }

/-- C8 witness: instantiation of the benign-clearing claim at a handle
with no finalizer token in its options. -/
theorem claim_C8_witness : (V1.Delete envAll pvC8 sC8).1 = DelResult.ok :=
  claim_C8_benign_clear envAll pvC8 sC8 secC8 recC8 (by decide) ⟨"sh", by decide⟩ (by decide)
    (by decide) (by decide) rfl (Or.inl (by decide))

theorem find?_filter_ne (m : Opts) (k k' : String) (hne : k ≠ k') :
    (m.filter (fun p => p.1 != k')).find? (fun p => p.1 == k) =
      m.find? (fun p => p.1 == k) := by
  induction m with
  | nil => rfl
  | cons p rest ih =>
    by_cases hp : p.1 = k
    · have h1 : (p.1 != k') = true := by simp [hp, hne]
      have h2 : (p.1 == k) = true := by simp [hp]
      simp [List.filter_cons, h1, List.find?_cons, h2]
    · have h2 : (p.1 == k) = false := by simp [hp]
      by_cases hq : p.1 = k'
      · have h1 : (p.1 != k') = false := by simp [hq]
        simp [List.filter_cons, h1, List.find?_cons, h2, ih]
      · have h1 : (p.1 != k') = true := by simp [hq]
        simp [List.filter_cons, h1, List.find?_cons, h2, ih]

theorem getOpt_setOpt_ne (m : Opts) (k k' v : String) (hne : k ≠ k') :
    getOpt (setOpt m k' v) k = getOpt m k := by
  have hh : (k' == k) = false := by simp [Ne.symm hne]
  simp only [getOpt, setOpt, List.find?_cons, hh, find?_filter_ne m k k' hne]

theorem getOptQ_setOpt_same (m : Opts) (k v : String) :
    getOptQ (setOpt m k v) k = some v := by
  simp [getOptQ, setOpt, List.find?_cons]

theorem cpPloopPath_pvOpts (env : Env) (o : VolumeOptions) (n mnt : String) :
    V1.cpPloopPath mnt (V1.pvOpts env o n) = V1.cpPloopPath mnt (V1.scOpts o) := by
  simp only [V1.cpPloopPath, V1.pvOpts]
  rw [getOpt_setOpt_ne _ _ _ _ (by decide), getOpt_setOpt_ne _ _ _ _ (by decide),
    getOpt_setOpt_ne _ _ _ _ (by decide), getOpt_setOpt_ne _ _ _ _ (by decide)]

theorem mkdirAll_volumes (p : String) (s : SysState) : (mkdirAll p s).volumes = s.volumes := by
  rw [mkdirAll]; split <;> rfl

theorem mkdirAll_images (p : String) (s : SysState) : (mkdirAll p s).images = s.images := by
  rw [mkdirAll]; split <;> rfl

theorem mkdirAll_mounts (p : String) (s : SysState) : (mkdirAll p s).mounts = s.mounts := by
  rw [mkdirAll]; split <;> rfl

theorem mkdirAll_secrets (p : String) (s : SysState) : (mkdirAll p s).secrets = s.secrets := by
  rw [mkdirAll]; split <;> rfl

theorem mkdirAll_unmounts (p : String) (s : SysState) : (mkdirAll p s).unmounts = s.unmounts := by
  rw [mkdirAll]; split <;> rfl

theorem cpOkState_volumes (m : String) (op : Opts) (s : SysState) :
    (V1.cpOkState m op s).volumes = V1.cpRec m op :: s.volumes := by
  simp [V1.cpOkState, mkdirAll_volumes]

theorem cpOkState_images (m : String) (op : Opts) (s : SysState) :
    (V1.cpOkState m op s).images = V1.cpDeltaPath m op :: s.images := by
  simp [V1.cpOkState, mkdirAll_images]

theorem cpOkState_mounts (m : String) (op : Opts) (s : SysState) :
    (V1.cpOkState m op s).mounts = s.mounts := by
  simp [V1.cpOkState, mkdirAll_mounts]

theorem cpOkState_secrets (m : String) (op : Opts) (s : SysState) :
    (V1.cpOkState m op s).secrets = s.secrets := by
  simp [V1.cpOkState, mkdirAll_secrets]

theorem cpOkState_unmounts (m : String) (op : Opts) (s : SysState) :
    (V1.cpOkState m op s).unmounts = s.unmounts := by
  simp [V1.cpOkState, mkdirAll_unmounts]

theorem isVstorage_eq_of_mounts {s1 s2 : SysState} (h : s1.mounts = s2.mounts) (p : String) :
    isVstorage s1 p = isVstorage s2 p := by
  simp [isVstorage, h]

/-- C5: when the backing volume was created successfully but recording
the finalizer obligation fails (the secret patch fails), `Provision`
removes the just-created volume — its record, its directory tree and
its backing image — and returns an error, not a PV handle. -/
theorem claim_C5_compensating_rollback (env : Env) (o : VolumeOptions) (s : SysState)
    (sec : Secret) (modes : List AccessMode)
    (hmodes : V1.checkModes o.pvc.accessModes = Except.ok modes)
    (hsel : o.pvc.hasSelector = false)
    (hsec : s.secrets (o.pvc.ns, V1.secretNameOf o) = some sec)
    (hmnt : isVstorage s (mountDir ++ sec.clusterName) = true)
    (h1 : getOpt (V1.scOpts o) "volumePath" ≠ "") (h2 : getOpt (V1.scOpts o) "volumeID" ≠ "")
    (h3 : getOpt (V1.scOpts o) "size" ≠ "") (h4 : env.ploopCreateOk = true)
    (h5 : ∀ kv ∈ V1.scOpts o, V1.attrName kv.1 = "" ∨ env.attrOk (V1.attrName kv.1) kv.2 = true)
    (hfin : V1.finalizerOf env ∉ sec.finalizers)
    (hpatch : env.patchOk = false)
    (hdel : env.volDeleteOk = true) :
    (V1.Provision env o s).1 = Except.error "patch failed" ∧
    (∀ r ∈ (V1.Provision env o s).2.volumes,
      r.path ≠ V1.cpPloopPath (mountDir ++ sec.clusterName) (V1.scOpts o)) ∧
    V1.cpDeltaPath (mountDir ++ sec.clusterName) (V1.scOpts o) ∉
      (V1.Provision env o s).2.images := by
  have hcp := createPloop_ok_spec env (mountDir ++ sec.clusterName) (V1.scOpts o)
    (readSecret s) h1 h2 h3 h4 h5
  refine ⟨?_, ?_, ?_⟩
  · simp [V1.Provision, hmodes, hsel, readSecret_secrets, hsec, V1.prepareVstorage,
      isVstorage_readSecret, hmnt, hcp, hfin, patchSecret, hpatch, V1.removePloop,
      cpPloopPath_pvOpts, cpOkState_volumes, readSecret_volumes, V1.cpRec,
      List.find?_cons, hdel]
  · intro r hr
    simp [V1.Provision, hmodes, hsel, readSecret_secrets, hsec, V1.prepareVstorage,
      isVstorage_readSecret, hmnt, hcp, hfin, patchSecret, hpatch, V1.removePloop,
      cpPloopPath_pvOpts, cpOkState_volumes, readSecret_volumes, V1.cpRec,
      List.find?_cons, hdel, List.mem_filter] at hr
    intro hp
    rw [hp] at hr
    simp at hr
  · intro hmem
    simp [V1.Provision, hmodes, hsel, readSecret_secrets, hsec, V1.prepareVstorage,
      isVstorage_readSecret, hmnt, hcp, hfin, patchSecret, hpatch, V1.removePloop,
      cpPloopPath_pvOpts, cpOkState_volumes, cpOkState_images, readSecret_volumes,
      V1.cpRec, List.find?_cons, hdel, List.mem_filter] at hmem

/-- Concrete provision request for the rollback and symmetry claims. -/
def oC5 : VolumeOptions :=
  { pvc := { accessModes := [], hasSelector := false, requestBytes := 1024, uid := "u", ns := "ns" }
    pvName := "pv"
    parameters := [("volumePath", "v"), ("secretName", "sec")] }

/-- Concrete secret with an empty finalizer list. -/
def secC5 : Secret := { clusterName := "c", clusterPassword := "p", finalizers := [] }

/-- Concrete state with the cluster already mounted and the secret
stored. -/
def sC5 : SysState :=
  { s0 with
    mounts := [("/export/virtuozzo-provisioner/mnt/c", "c")]
    secrets := fun k => if k = ("ns", "sec") then some secC5 else none }

/-- Environment in which only the secret patch fails. -/
def envC5 : Env := { envAll with patchOk := false }

/-- C5 witness: instantiation of the compensating-rollback claim. -/
theorem claim_C5_witness :
    (V1.Provision envC5 oC5 sC5).1 = Except.error "patch failed" ∧
    (∀ r ∈ (V1.Provision envC5 oC5 sC5).2.volumes,
      r.path ≠ V1.cpPloopPath (mountDir ++ secC5.clusterName) (V1.scOpts oC5)) ∧
    V1.cpDeltaPath (mountDir ++ secC5.clusterName) (V1.scOpts oC5) ∉
      (V1.Provision envC5 oC5 sC5).2.images :=
  claim_C5_compensating_rollback envC5 oC5 sC5 secC5 [AccessMode.rwo] (by decide) rfl
    (by decide) (by decide) (by decide) (by decide) (by decide) rfl (by decide) (by decide)
    rfl rfl

theorem removeFirst_append_self {f : String} {l : List String} (h : f ∉ l) :
    V1.removeFirst f (l ++ [f]) = l := by
  induction l with
  | nil => simp [V1.removeFirst]
  | cons x xs ih =>
    have hx : x ≠ f := fun hx => h (hx ▸ List.mem_cons_self x xs)
    have hxs : f ∉ xs := fun hm => h (List.mem_cons_of_mem _ hm)
    simp [V1.removeFirst, hx, ih hxs]

theorem mkPV_annotations_parent (env : Env) (o : VolumeOptions) (m : List AccessMode)
    (n : String) :
    getOptQ (V1.mkPV env o m n).annotations parentProvisionerAnn = some env.provisionerID := by
  simp [V1.mkPV, getOptQ, List.find?_cons]

theorem mkPV_annotations_share (env : Env) (o : VolumeOptions) (m : List AccessMode)
    (n : String) :
    getOptQ (V1.mkPV env o m n).annotations vzShareAnn = some (V1.shareName o) := by
  simp [V1.mkPV, getOptQ, List.find?_cons, parentProvisionerAnn, vzShareAnn]

theorem mkPV_secretRef (env : Env) (o : VolumeOptions) (m : List AccessMode) (n : String) :
    (V1.mkPV env o m n).secretRef = V1.secretNameOf o := rfl

theorem mkPV_options (env : Env) (o : VolumeOptions) (m : List AccessMode) (n : String) :
    (V1.mkPV env o m n).options = V1.pvOpts env o n := rfl

theorem getOptQ_pvOpts_finalizer (env : Env) (o : VolumeOptions) (n : String) :
    getOptQ (V1.pvOpts env o n) "finalizer" = some (V1.finalizerOf env) :=
  getOptQ_setOpt_same _ _ _

/-- C3 (amended): for a successful `Provision` the stored secret's
finalizer list contains the freshly generated token exactly once
(check-before-add); after a subsequent `Delete` of that handle in
which the secret patch succeeds, the token is absent. (When the patch
fails, `Delete` still returns success and the token remains — see the
counterexample.) -/
theorem claim_C3_obligation_symmetry (env : Env) (o : VolumeOptions) (s : SysState)
    (sec : Secret) (modes : List AccessMode)
    (hmodes : V1.checkModes o.pvc.accessModes = Except.ok modes)
    (hsel : o.pvc.hasSelector = false)
    (hsec : s.secrets (o.pvc.ns, V1.secretNameOf o) = some sec)
    (hmnt : isVstorage s (mountDir ++ sec.clusterName) = true)
    (h1 : getOpt (V1.scOpts o) "volumePath" ≠ "") (h2 : getOpt (V1.scOpts o) "volumeID" ≠ "")
    (h3 : getOpt (V1.scOpts o) "size" ≠ "") (h4 : env.ploopCreateOk = true)
    (h5 : ∀ kv ∈ V1.scOpts o, V1.attrName kv.1 = "" ∨ env.attrOk (V1.attrName kv.1) kv.2 = true)
    (hfin : V1.finalizerOf env ∉ sec.finalizers)
    (hpatch : env.patchOk = true)
    (hdel : env.volDeleteOk = true) :
    (V1.Provision env o s).1 = Except.ok (V1.mkPV env o modes sec.clusterName) ∧
    (∃ secP, (V1.Provision env o s).2.secrets (o.pvc.ns, V1.secretNameOf o) = some secP ∧
      secP.finalizers.count (V1.finalizerOf env) = 1) ∧
    (V1.Delete env { V1.mkPV env o modes sec.clusterName with claimRefNamespace := o.pvc.ns }
      (V1.Provision env o s).2).1 = DelResult.ok ∧
    (∃ secD, (V1.Delete env
        { V1.mkPV env o modes sec.clusterName with claimRefNamespace := o.pvc.ns }
        (V1.Provision env o s).2).2.secrets (o.pvc.ns, V1.secretNameOf o) = some secD ∧
      secD.finalizers.count (V1.finalizerOf env) = 0) := by
  have hcp := createPloop_ok_spec env (mountDir ++ sec.clusterName) (V1.scOpts o)
    (readSecret s) h1 h2 h3 h4 h5
  have hProv1 : (V1.Provision env o s).1 = Except.ok (V1.mkPV env o modes sec.clusterName) := by
    simp [V1.Provision, hmodes, hsel, readSecret_secrets, hsec, V1.prepareVstorage,
      isVstorage_readSecret, hmnt, hcp, hfin, patchSecret, hpatch]
  have hsP : (V1.Provision env o s).2.secrets (o.pvc.ns, V1.secretNameOf o) =
      some { sec with finalizers := sec.finalizers ++ [V1.finalizerOf env] } := by
    simp [V1.Provision, hmodes, hsel, readSecret_secrets, hsec, V1.prepareVstorage,
      isVstorage_readSecret, hmnt, hcp, hfin, patchSecret, hpatch, updSecrets]
  have hsPmounts : (V1.Provision env o s).2.mounts = s.mounts := by
    simp [V1.Provision, hmodes, hsel, readSecret_secrets, hsec, V1.prepareVstorage,
      isVstorage_readSecret, hmnt, hcp, hfin, patchSecret, hpatch, cpOkState_mounts,
      readSecret_mounts]
  have hsPvolumes : (V1.Provision env o s).2.volumes =
      V1.cpRec (mountDir ++ sec.clusterName) (V1.scOpts o) :: s.volumes := by
    simp [V1.Provision, hmodes, hsel, readSecret_secrets, hsec, V1.prepareVstorage,
      isVstorage_readSecret, hmnt, hcp, hfin, patchSecret, hpatch, cpOkState_volumes,
      readSecret_volumes]
  have hmntP : isVstorage (V1.Provision env o s).2 (mountDir ++ sec.clusterName) = true :=
    (isVstorage_eq_of_mounts hsPmounts _).trans hmnt
  have hrf : V1.removeFirst (V1.finalizerOf env) (sec.finalizers ++ [V1.finalizerOf env]) =
      sec.finalizers := removeFirst_append_self hfin
  have hDel1 : (V1.Delete env
      { V1.mkPV env o modes sec.clusterName with claimRefNamespace := o.pvc.ns }
      (V1.Provision env o s).2).1 = DelResult.ok := by
    simp [V1.Delete, mkPV_annotations_parent, mkPV_annotations_share, mkPV_secretRef,
      mkPV_options, readSecret_secrets, hsP, V1.prepareVstorage, isVstorage_readSecret,
      hmntP, V1.removePloop, readSecret_volumes, hsPvolumes, cpPloopPath_pvOpts, V1.cpRec,
      List.find?_cons, hdel, getOptQ_pvOpts_finalizer, hrf, patchSecret, hpatch]
  have hsD : (V1.Delete env
      { V1.mkPV env o modes sec.clusterName with claimRefNamespace := o.pvc.ns }
      (V1.Provision env o s).2).2.secrets (o.pvc.ns, V1.secretNameOf o) = some sec := by
    simp [V1.Delete, mkPV_annotations_parent, mkPV_annotations_share, mkPV_secretRef,
      mkPV_options, readSecret_secrets, hsP, V1.prepareVstorage, isVstorage_readSecret,
      hmntP, V1.removePloop, readSecret_volumes, hsPvolumes, cpPloopPath_pvOpts, V1.cpRec,
      List.find?_cons, hdel, getOptQ_pvOpts_finalizer, hrf, patchSecret, hpatch, updSecrets]
  have hcount1 : ({ sec with finalizers := sec.finalizers ++ [V1.finalizerOf env] } :
      Secret).finalizers.count (V1.finalizerOf env) = 1 := by
    simp [List.count_append, List.count_eq_zero.mpr hfin]
  exact ⟨hProv1, ⟨_, hsP, hcount1⟩, hDel1, ⟨sec, hsD, List.count_eq_zero.mpr hfin⟩⟩

/-- C3 witness: instantiation of the obligation-symmetry claim at a
concrete request, secret and pre-mounted state. -/
theorem claim_C3_witness :
    (V1.Provision envAll oC5 sC5).1 =
      Except.ok (V1.mkPV envAll oC5 [AccessMode.rwo] secC5.clusterName) ∧
    (∃ secP, (V1.Provision envAll oC5 sC5).2.secrets (oC5.pvc.ns, V1.secretNameOf oC5) =
        some secP ∧ secP.finalizers.count (V1.finalizerOf envAll) = 1) ∧
    (V1.Delete envAll
      { V1.mkPV envAll oC5 [AccessMode.rwo] secC5.clusterName with
        claimRefNamespace := oC5.pvc.ns } (V1.Provision envAll oC5 sC5).2).1 = DelResult.ok ∧
    (∃ secD, (V1.Delete envAll
        { V1.mkPV envAll oC5 [AccessMode.rwo] secC5.clusterName with
          claimRefNamespace := oC5.pvc.ns }
        (V1.Provision envAll oC5 sC5).2).2.secrets (oC5.pvc.ns, V1.secretNameOf oC5) =
        some secD ∧ secD.finalizers.count (V1.finalizerOf envAll) = 0) :=
  claim_C3_obligation_symmetry envAll oC5 sC5 secC5 [AccessMode.rwo] (by decide) rfl
    (by decide) (by decide) (by decide) (by decide) (by decide) rfl (by decide) (by decide)
    rfl rfl

/-- Concrete existing volume for the C3 counterexample handle. -/
def recC3 : VolRec :=
  { path := "/export/virtuozzo-provisioner/mnt/c/v/i"
    sizeKB := 1
    image := "/export/virtuozzo-provisioner/mnt/c/v/i.image" }

/-- Concrete secret holding the handle's finalizer token. -/
def secC3 : Secret := { clusterName := "c", clusterPassword := "p", finalizers := ["fin1"] }

/-- Concrete state with the mount, the volume and the secret. -/
def sC3 : SysState :=
  { s0 with
    mounts := [("/export/virtuozzo-provisioner/mnt/c", "c")]
    volumes := [recC3]
    secrets := fun k => if k = ("ns", "sec") then some secC3 else none }

/-- Concrete owned handle carrying the finalizer token. -/
def pvC3 : PV :=
  { name := "pv1"
    annotations := [(parentProvisionerAnn, "prov-1"), (vzShareAnn, "sh")]
    accessModes := [AccessMode.rwo]
    capacity := 1024
    driver := "virtuozzo/ploop"
    secretRef := "sec"
    options := [("volumePath", "v"), ("volumeID", "i"), ("finalizer", "fin1")]
    claimRefNamespace := "ns" }

/-- C3 counterexample: when the secret patch fails during `Delete`,
the call still returns success while the finalizer token remains in
the stored secret — so a successful `Delete` does not guarantee the
token is absent afterwards. -/
theorem claim_C3_counterexample :
    (V1.Delete envC5 pvC3 sC3).1 = DelResult.ok ∧
    (V1.Delete envC5 pvC3 sC3).2.secrets ("ns", "sec") = some secC3 := by
  decide

/-- Frame relation for mount persistence: no unmount event was added
and every live mount is still live. -/
def mountsExt (s s' : SysState) : Prop :=
  s'.unmounts = s.unmounts ∧ ∀ m ∈ s.mounts, m ∈ s'.mounts

theorem mountsExt_refl (s : SysState) : mountsExt s s := ⟨rfl, fun _ h => h⟩

theorem mountsExt_trans {a b c : SysState} (h1 : mountsExt a b) (h2 : mountsExt b c) :
    mountsExt a c :=
  ⟨h2.1.trans h1.1, fun m hm => h2.2 m (h1.2 m hm)⟩

theorem mountsExt_of_eq {s s' : SysState} (h1 : s'.unmounts = s.unmounts)
    (h2 : s'.mounts = s.mounts) : mountsExt s s' :=
  ⟨h1, fun _ hm => h2 ▸ hm⟩

theorem mountsExt_cons {s s' : SysState} (x : String × String)
    (h1 : s'.unmounts = s.unmounts) (h2 : s'.mounts = x :: s.mounts) : mountsExt s s' :=
  ⟨h1, fun _ hm => h2 ▸ List.mem_cons_of_mem _ hm⟩

theorem mountsExt_readSecret (s : SysState) : mountsExt s (readSecret s) :=
  mountsExt_of_eq rfl rfl

theorem prepareVstorage_mountsExt (env : Env) (op : Opts) (c pw : String) (s : SysState) :
    mountsExt s (V1.prepareVstorage env op c pw s).2 := by
  simp only [V1.prepareVstorage]
  split
  · exact mountsExt_refl s
  · split
    · split
      · exact mountsExt_cons (mountDir ++ c, c) (by simp [addMount, mkdirAll_unmounts])
          (by simp [addMount, mkdirAll_mounts])
      · exact mountsExt_of_eq (by simp [mkdirAll_unmounts]) (by simp [mkdirAll_mounts])
    · split
      · split
        · exact mountsExt_cons (mountDir ++ c, c) (by simp [addMount, mkdirAll_unmounts])
            (by simp [addMount, mkdirAll_mounts])
        · exact mountsExt_of_eq (by simp [mkdirAll_unmounts]) (by simp [mkdirAll_mounts])
      · exact mountsExt_of_eq (by simp [mkdirAll_unmounts]) (by simp [mkdirAll_mounts])

theorem applyAttrs_mounts (env : Env) (p : String) (l : Opts) (s : SysState) :
    (V1.applyAttrs env p l s).2.mounts = s.mounts := by
  induction l generalizing s with
  | nil => rfl
  | cons kv rest ih =>
    obtain ⟨k, v⟩ := kv
    simp only [V1.applyAttrs]
    split
    · exact ih s
    · split
      · exact ih s
      · simp [removeAllFS]

theorem applyAttrs_unmounts (env : Env) (p : String) (l : Opts) (s : SysState) :
    (V1.applyAttrs env p l s).2.unmounts = s.unmounts := by
  induction l generalizing s with
  | nil => rfl
  | cons kv rest ih =>
    obtain ⟨k, v⟩ := kv
    simp only [V1.applyAttrs]
    split
    · exact ih s
    · split
      · exact ih s
      · simp [removeAllFS]

theorem ploopVolumeCreate_mounts (env : Env) (p : String) (k : Nat) (d : String)
    (s : SysState) : (V1.ploopVolumeCreate env p k d s).2.mounts = s.mounts := by
  simp only [V1.ploopVolumeCreate]
  split <;> rfl

theorem ploopVolumeCreate_unmounts (env : Env) (p : String) (k : Nat) (d : String)
    (s : SysState) : (V1.ploopVolumeCreate env p k d s).2.unmounts = s.unmounts := by
  simp only [V1.ploopVolumeCreate]
  split <;> rfl

theorem createPloop_mounts (env : Env) (m : String) (op : Opts) (s : SysState) :
    (V1.createPloop env m op s).2.mounts = s.mounts := by
  simp only [V1.createPloop]
  split
  · rfl
  split
  · rfl
  split
  · rfl
  split
  · rename_i e s1 heq
    have h := congrArg (fun x => x.2.mounts) heq
    simp only [ploopVolumeCreate_mounts, mkdirAll_mounts] at h
    exact h.symm
  · rename_i u s1 heq
    have h := congrArg (fun x => x.2.mounts) heq
    simp only [ploopVolumeCreate_mounts, mkdirAll_mounts] at h
    rw [applyAttrs_mounts]
    exact h.symm

theorem createPloop_unmounts (env : Env) (m : String) (op : Opts) (s : SysState) :
    (V1.createPloop env m op s).2.unmounts = s.unmounts := by
  simp only [V1.createPloop]
  split
  · rfl
  split
  · rfl
  split
  · rfl
  split
  · rename_i e s1 heq
    have h := congrArg (fun x => x.2.unmounts) heq
    simp only [ploopVolumeCreate_unmounts, mkdirAll_unmounts] at h
    exact h.symm
  · rename_i u s1 heq
    have h := congrArg (fun x => x.2.unmounts) heq
    simp only [ploopVolumeCreate_unmounts, mkdirAll_unmounts] at h
    rw [applyAttrs_unmounts]
    exact h.symm

theorem removePloop_mounts (env : Env) (m : String) (op : Opts) (s : SysState) :
    (V1.removePloop env m op s).2.mounts = s.mounts := by
  simp only [V1.removePloop]
  split
  · rfl
  · split <;> rfl

theorem removePloop_unmounts (env : Env) (m : String) (op : Opts) (s : SysState) :
    (V1.removePloop env m op s).2.unmounts = s.unmounts := by
  simp only [V1.removePloop]
  split
  · rfl
  · split <;> rfl

theorem patchSecret_mounts (env : Env) (k : String × String) (n : Secret) (s : SysState) :
    (patchSecret env k n s).2.mounts = s.mounts := by
  simp only [patchSecret]
  split <;> rfl

theorem patchSecret_unmounts (env : Env) (k : String × String) (n : Secret) (s : SysState) :
    (patchSecret env k n s).2.unmounts = s.unmounts := by
  simp only [patchSecret]
  split <;> rfl

theorem provision_mountsExt (env : Env) (o : VolumeOptions) (s : SysState) :
    mountsExt s (V1.Provision env o s).2 := by
  simp only [V1.Provision]
  split
  · exact mountsExt_refl s
  split
  · exact mountsExt_refl s
  split
  · exact mountsExt_readSecret s
  rename_i sec hsec
  split
  · rename_i e s1 hpre
    have h := prepareVstorage_mountsExt env (V1.scOpts o) sec.clusterName sec.clusterPassword
      (readSecret s)
    rw [hpre] at h
    exact mountsExt_trans (mountsExt_readSecret s) (by simpa using h)
  rename_i u s1 hpre
  have hp : mountsExt s s1 := by
    have h := prepareVstorage_mountsExt env (V1.scOpts o) sec.clusterName sec.clusterPassword
      (readSecret s)
    rw [hpre] at h
    exact mountsExt_trans (mountsExt_readSecret s) (by simpa using h)
  split
  · rename_i e s2 hcp
    have hm := congrArg (fun x => x.2.mounts) hcp
    have hu := congrArg (fun x => x.2.unmounts) hcp
    simp only [createPloop_mounts] at hm
    simp only [createPloop_unmounts] at hu
    exact mountsExt_trans hp (mountsExt_of_eq hu.symm hm.symm)
  rename_i u2 s2 hcp
  have hc : mountsExt s s2 := by
    have hm := congrArg (fun x => x.2.mounts) hcp
    have hu := congrArg (fun x => x.2.unmounts) hcp
    simp only [createPloop_mounts] at hm
    simp only [createPloop_unmounts] at hu
    exact mountsExt_trans hp (mountsExt_of_eq hu.symm hm.symm)
  split
  · exact hc
  split
  · rename_i s3 hps
    have hm := congrArg (fun x => x.2.mounts) hps
    have hu := congrArg (fun x => x.2.unmounts) hps
    simp only [patchSecret_mounts] at hm
    simp only [patchSecret_unmounts] at hu
    exact mountsExt_trans hc (mountsExt_of_eq hu.symm hm.symm)
  rename_i e s3 hps
  have hq : mountsExt s s3 := by
    have hm := congrArg (fun x => x.2.mounts) hps
    have hu := congrArg (fun x => x.2.unmounts) hps
    simp only [patchSecret_mounts] at hm
    simp only [patchSecret_unmounts] at hu
    exact mountsExt_trans hc (mountsExt_of_eq hu.symm hm.symm)
  split
  · exact mountsExt_trans hq (mountsExt_of_eq
      (removePloop_unmounts env (mountDir ++ sec.clusterName)
        (V1.pvOpts env o sec.clusterName) s3)
      (removePloop_mounts env (mountDir ++ sec.clusterName)
        (V1.pvOpts env o sec.clusterName) s3))
  · exact mountsExt_trans hq (mountsExt_of_eq
      (removePloop_unmounts env (mountDir ++ sec.clusterName)
        (V1.pvOpts env o sec.clusterName) s3)
      (removePloop_mounts env (mountDir ++ sec.clusterName)
        (V1.pvOpts env o sec.clusterName) s3))

theorem delete_mountsExt (env : Env) (pv : PV) (s : SysState) :
    mountsExt s (V1.Delete env pv s).2 := by
  simp only [V1.Delete]
  split
  · exact mountsExt_refl s
  split
  · exact mountsExt_refl s
  split
  · exact mountsExt_refl s
  split
  · exact mountsExt_readSecret s
  rename_i sec hsec
  split
  · rename_i e s1 hpre
    have h := prepareVstorage_mountsExt env pv.options sec.clusterName sec.clusterPassword
      (readSecret s)
    rw [hpre] at h
    exact mountsExt_trans (mountsExt_readSecret s) (by simpa using h)
  rename_i u s1 hpre
  have hp : mountsExt s s1 := by
    have h := prepareVstorage_mountsExt env pv.options sec.clusterName sec.clusterPassword
      (readSecret s)
    rw [hpre] at h
    exact mountsExt_trans (mountsExt_readSecret s) (by simpa using h)
  split
  · rename_i e s2 hrp
    have hm := congrArg (fun x => x.2.mounts) hrp
    have hu := congrArg (fun x => x.2.unmounts) hrp
    simp only [removePloop_mounts] at hm
    simp only [removePloop_unmounts] at hu
    exact mountsExt_trans hp (mountsExt_of_eq hu.symm hm.symm)
  rename_i u2 s2 hrp
  have hr : mountsExt s s2 := by
    have hm := congrArg (fun x => x.2.mounts) hrp
    have hu := congrArg (fun x => x.2.unmounts) hrp
    simp only [removePloop_mounts] at hm
    simp only [removePloop_unmounts] at hu
    exact mountsExt_trans hp (mountsExt_of_eq hu.symm hm.symm)
  split
  · exact hr
  split
  · split
    · rename_i s3 hps
      have hm := congrArg (fun x => x.2.mounts) hps
      have hu := congrArg (fun x => x.2.unmounts) hps
      simp only [patchSecret_mounts] at hm
      simp only [patchSecret_unmounts] at hu
      exact mountsExt_trans hr (mountsExt_of_eq hu.symm hm.symm)
    · rename_i e s3 hps
      have hm := congrArg (fun x => x.2.mounts) hps
      have hu := congrArg (fun x => x.2.unmounts) hps
      simp only [patchSecret_mounts] at hm
      simp only [patchSecret_unmounts] at hu
      exact mountsExt_trans hr (mountsExt_of_eq hu.symm hm.symm)
  · exact hr

/-- C6 (amended): the current variant's `Provision` and `Delete` never
unmount — no unmount event is ever recorded and every live cluster
mount stays live across any call, so after a successful `Provision`
and a subsequent successful `Delete` the cluster remains mounted. The
historical variant instead detach-unmounts the cluster mount at the
end of each call (see the counterexample). -/
theorem claim_C6_mount_persistence (env : Env) (o : VolumeOptions) (pv : PV) (s : SysState) :
    (V1.Provision env o s).2.unmounts = s.unmounts ∧
    (∀ m ∈ s.mounts, m ∈ (V1.Provision env o s).2.mounts) ∧
    (V1.Delete env pv s).2.unmounts = s.unmounts ∧
    (∀ m ∈ s.mounts, m ∈ (V1.Delete env pv s).2.mounts) :=
  ⟨(provision_mountsExt env o s).1, (provision_mountsExt env o s).2,
   (delete_mountsExt env pv s).1, (delete_mountsExt env pv s).2⟩

/-- C6 witness: instantiation of the mount-persistence claim at a
concrete successful Provision and a concrete successful Delete. -/
theorem claim_C6_witness :
    (V1.Provision envAll oC5 sC5).2.unmounts = sC5.unmounts ∧
    ("/export/virtuozzo-provisioner/mnt/c", "c") ∈ (V1.Provision envAll oC5 sC5).2.mounts ∧
    (V1.Delete envAll pvC3 sC3).2.unmounts = sC3.unmounts ∧
    ("/export/virtuozzo-provisioner/mnt/c", "c") ∈ (V1.Delete envAll pvC3 sC3).2.mounts :=
  ⟨(claim_C6_mount_persistence envAll oC5 pvC3 sC5).1,
   (claim_C6_mount_persistence envAll oC5 pvC3 sC5).2.1 _ (by decide),
   (claim_C6_mount_persistence envAll oC5 pvC3 sC3).2.2.1,
   (claim_C6_mount_persistence envAll oC5 pvC3 sC3).2.2.2 _ (by decide)⟩

/-- The PV produced by the historical `Provision` on the concrete C6
counterexample run. -/
def pvC6 : PV :=
  { name := "pv"
    annotations := [(parentProvisionerAnn, "prov-1"),
                    (vzShareAnn, "kubernetes-dynamic-pvc-u1")]
    accessModes := []
    capacity := 1024
    driver := "virtuozzo/ploop"
    secretRef := "sec"
    options := [("size", "1024"), ("volumeId", "kubernetes-dynamic-pvc-u1"),
                ("volumePath", "v")]
    claimRefNamespace := "" }

/-- C6 counterexample: the historical variant's `Provision` succeeds
and yet detach-unmounts the cluster mount before returning — the
cluster is no longer mounted at its local path afterwards, refuting
the claim that Provision never explicitly unmounts in normal
operation. -/
theorem claim_C6_counterexample :
    (V0.Provision envAll oC5 sC5).1 = Except.ok pvC6 ∧
    (V0.Provision envAll oC5 sC5).2.unmounts = ["/export/virtuozzo-provisioner/mnt/c"] ∧
    (V0.Provision envAll oC5 sC5).2.mounts = [] ∧
    isVstorage (V0.Provision envAll oC5 sC5).2 (mountDir ++ "c") = false := by
  decide
